import Mathlib

/-
Verification of the shared-ring stub layer in src/lib/ring_stubs.c.

The C file exposes eight CAMLprim stubs over a Xen shared ring control block
(struct sring).  Each stub is embedded below as a pure Lean function from the
ring pointer value (a machine address, as a Nat), the current contents of the
four shared RING_IDX fields, and the OCaml argument, to a StubRun record: the
final field contents, the program-ordered trace of shared-memory loads, stores
and fences performed by the stub, the value returned to OCaml, and the
abnormal outcome (assertion failure), if any.  Both xen_mb and xen_wmb expand
to __sync_synchronize, a full fence, modelled by the single MemOp.fence event.
RING_IDX is a 32-bit unsigned integer, so field stores truncate modulo 2^32.
The index arithmetic layer and the notification gate of the specification have
no implementation under src/ and are modelled from the spec where needed, as
marked in their doc comments.
-/

namespace RingStubs

/-- Modulus of RING_IDX arithmetic, equal to 2 to the 32nd power. -/
def U32 : Nat := 4294967296

/-- PAGE_SIZE as defined in ring_stubs.c. -/
def PAGE_SIZE : Nat := 4096

/-- The four RING_IDX fields of struct sring, in declaration order. -/
inductive Field where
  | req_prod
  | req_event
  | rsp_prod
  | rsp_event
deriving DecidableEq

/-- Contents of the four index fields of the shared struct sring.  The pad
bytes carry no data and are never accessed by the stubs. -/
structure SRing where
  req_prod : Nat
  req_event : Nat
  rsp_prod : Nat
  rsp_event : Nat
deriving DecidableEq

/-- One shared-memory micro-operation of a stub, in program order: a full
fence (xen_mb and xen_wmb both expand to __sync_synchronize), a store of a
value to a field, or a load of a value from a field. -/
inductive MemOp where
  | fence : MemOp
  | store : Field → Nat → MemOp
  | load : Field → Nat → MemOp
deriving DecidableEq

/-- Abnormal outcomes.  The C stubs can only abort through the assert in
caml_sring_push_requests (assertFailed); ringOverrun is the distinct fault
named by the error taxonomy of the specification and is included in the type
so that claims about surfacing it can be stated; no stub ever produces it. -/
inductive Fault where
  | assertFailed
  | ringOverrun
deriving DecidableEq

/-- Result of one stub call: the final shared field contents, the trace of
shared-memory operations in program order, the value returned to OCaml
(0 encodes unit), and the abnormal outcome, if any. -/
structure StubRun where
  state : SRing
  trace : List MemOp
  ret : Nat
  fault : Option Fault
deriving DecidableEq

/-- caml_sring_rsp_prod: returns Val_int of the rsp_prod field.  A single
load, no fence of any kind. -/
def caml_sring_rsp_prod (_addr : Nat) (s : SRing) : StubRun :=
  { state := s
    trace := [MemOp.load Field.rsp_prod s.rsp_prod]
    ret := s.rsp_prod
    fault := none }

/-- caml_sring_req_prod: returns Val_int of the req_prod field.  A single
load, no fence of any kind. -/
def caml_sring_req_prod (_addr : Nat) (s : SRing) : StubRun :=
  { state := s
    trace := [MemOp.load Field.req_prod s.req_prod]
    ret := s.req_prod
    fault := none }

/-- caml_sring_req_event: xen_mb, then returns Val_int of the req_event
field.  The fence comes before the load. -/
def caml_sring_req_event (_addr : Nat) (s : SRing) : StubRun :=
  { state := s
    trace := [MemOp.fence, MemOp.load Field.req_event s.req_event]
    ret := s.req_event
    fault := none }

/-- caml_sring_rsp_event: xen_mb, then returns Val_int of the rsp_event
field.  The fence comes before the load. -/
def caml_sring_rsp_event (_addr : Nat) (s : SRing) : StubRun :=
  { state := s
    trace := [MemOp.fence, MemOp.load Field.rsp_event s.rsp_event]
    ret := s.rsp_event
    fault := none }

/-- caml_sring_push_requests: asserts that the sring pointer is page aligned,
issues xen_wmb, then stores the private request producer index into the
shared req_prod field.  On a misaligned pointer the assert aborts before any
shared-memory operation is performed. -/
def caml_sring_push_requests (addr : Nat) (s : SRing) (v_req_prod_pvt : Nat) :
    StubRun :=
  if addr % PAGE_SIZE = 0 then
    { state := { s with req_prod := v_req_prod_pvt % U32 }
      trace := [MemOp.fence, MemOp.store Field.req_prod (v_req_prod_pvt % U32)]
      ret := 0
      fault := none }
  else
    { state := s, trace := [], ret := 0, fault := some Fault.assertFailed }

/-- caml_sring_push_responses: issues xen_wmb, then stores the private
response producer index into the shared rsp_prod field.  No assert. -/
def caml_sring_push_responses (_addr : Nat) (s : SRing) (v_rsp_prod_pvt : Nat) :
    StubRun :=
  { state := { s with rsp_prod := v_rsp_prod_pvt % U32 }
    trace := [MemOp.fence, MemOp.store Field.rsp_prod (v_rsp_prod_pvt % U32)]
    ret := 0
    fault := none }

/-- caml_sring_set_rsp_event: stores the response consumer index into the
shared rsp_event field, then issues xen_mb. -/
def caml_sring_set_rsp_event (_addr : Nat) (s : SRing) (v_rsp_cons : Nat) :
    StubRun :=
  { state := { s with rsp_event := v_rsp_cons % U32 }
    trace := [MemOp.store Field.rsp_event (v_rsp_cons % U32), MemOp.fence]
    ret := 0
    fault := none }

/-- caml_sring_set_req_event: stores the request consumer index into the
shared req_event field, then issues xen_mb. -/
def caml_sring_set_req_event (_addr : Nat) (s : SRing) (v_req_cons : Nat) :
    StubRun :=
  { state := { s with req_event := v_req_cons % U32 }
    trace := [MemOp.store Field.req_event (v_req_cons % U32), MemOp.fence]
    ret := 0
    fault := none }

/-- sizeof(RING_IDX): RING_IDX is a 32-bit unsigned integer, 4 bytes. -/
def ringIdxBytes : Nat := 4

/-- Byte offset of each RING_IDX field inside struct sring, following the
field declaration order req_prod, req_event, rsp_prod, rsp_event. -/
def fieldOffset : Field → Nat
  | Field.req_prod => 0
  | Field.req_event => 4
  | Field.rsp_prod => 8
  | Field.rsp_event => 12

/-- Size of the pad array of struct sring: uint8_t pad[64]. -/
def sringPadBytes : Nat := 64

/-- sizeof(struct sring): four 4-byte indices followed by the 64 pad bytes. -/
def sringHeaderBytes : Nat := 4 * ringIdxBytes + sringPadBytes

/-- Cache line size assumed by the padding discipline: 64 bytes. -/
def cacheLineBytes : Nat := 64

/-- Does the trace store to field f somewhere? -/
def storesTo (t : List MemOp) (f : Field) : Bool :=
  t.any fun op =>
    match op with
    | MemOp.store g _ => g == f
    | _ => false

/-- Does the trace load from field f somewhere? -/
def loadsFrom (t : List MemOp) (f : Field) : Bool :=
  t.any fun op =>
    match op with
    | MemOp.load g _ => g == f
    | _ => false

/-- Helper for fenceBeforeEveryStore: seenFence records whether a fence has
already occurred earlier in the trace. -/
def fenceBeforeEveryStoreAux (seenFence : Bool) (t : List MemOp) (f : Field) :
    Bool :=
  match t with
  | [] => true
  | MemOp.fence :: rest => fenceBeforeEveryStoreAux true rest f
  | MemOp.store g _ :: rest =>
      (!(g == f) || seenFence) && fenceBeforeEveryStoreAux seenFence rest f
  | MemOp.load _ _ :: rest => fenceBeforeEveryStoreAux seenFence rest f

/-- Every store to field f in the trace is preceded, strictly earlier in
program order, by a fence. -/
def fenceBeforeEveryStore (t : List MemOp) (f : Field) : Bool :=
  fenceBeforeEveryStoreAux false t f

/-- Does the trace contain a load of field f that is followed, strictly later
in program order, by a fence? -/
def fenceSomewhereAfterLoad (t : List MemOp) (f : Field) : Bool :=
  match t with
  | [] => false
  | MemOp.load g _ :: rest =>
      (g == f && rest.contains MemOp.fence) || fenceSomewhereAfterLoad rest f
  | _ :: rest => fenceSomewhereAfterLoad rest f

/-- Modelled from the spec: wrapping unsigned 32-bit subtraction, the
arithmetic underlying available(produced, consumed) and the notification
gate.  The index arithmetic layer is not part of the C stub file. -/
def sub32 (x y : Nat) : Nat := (x % U32 + U32 - y % U32) % U32

/-- Modelled from the spec: available(produced, consumed), computed as
produced minus consumed using wrapping unsigned subtraction.  Not part of the
C stub file. -/
def available (produced consumed : Nat) : Nat := sub32 produced consumed

/-- Modelled from the spec: the event gate run right after publishing
new_prod, the previously published index being old_prod: notify exactly when
the distance from the threshold back to new_prod is smaller than the distance
of the freshly published window, i.e. when the threshold lies inside that
window.  Not part of the C stub file. -/
def notify_if_needed (old_prod new_prod event : Nat) : Bool :=
  decide (sub32 new_prod event < sub32 new_prod old_prod)

/-- The newly published index new_prod crosses the threshold: the threshold
lies in the wrapped half-open window from old_prod exclusive to new_prod
inclusive. -/
def crossesThreshold (old_prod new_prod event : Nat) : Prop :=
  1 ≤ sub32 event old_prod ∧ sub32 event old_prod ≤ sub32 new_prod old_prod

/-- A concrete control block used in closed instances: req_prod 5,
req_event 6, rsp_prod 7, rsp_event 8. -/
def s0 : SRing :=
  { req_prod := 5, req_event := 6, rsp_prod := 7, rsp_event := 8 }

/-- A concrete control block whose req_prod is 100 entries ahead of a
consumer cursor at 0, against a capacity of 32: an overrun configuration. -/
def sOver : SRing :=
  { req_prod := 100, req_event := 0, rsp_prod := 0, rsp_event := 0 }

/-- Helper: a trace consisting of a fence followed by a store to f has every
store to f preceded by a fence, and does store to f. -/
theorem fence_store_pair_ok (f : Field) (x : Nat) :
    fenceBeforeEveryStore [MemOp.fence, MemOp.store f x] f = true ∧
    storesTo [MemOp.fence, MemOp.store f x] f = true := by
  constructor
  · simp [fenceBeforeEveryStore, fenceBeforeEveryStoreAux]
  · simp [storesTo]

/-- C1: in both producer-index publish stubs, caml_sring_push_requests and
caml_sring_push_responses, the write-side fence (xen_wmb) is issued before
the new value is stored into the shared produced field: the trace is exactly
a fence followed by the store, so every store of the produced index is
preceded by a fence. -/
theorem push_ops_fence_before_publish (addr : Nat) (s : SRing) (v : Nat) :
    (addr % PAGE_SIZE = 0 →
      (caml_sring_push_requests addr s v).trace =
        [MemOp.fence, MemOp.store Field.req_prod (v % U32)] ∧
      fenceBeforeEveryStore (caml_sring_push_requests addr s v).trace
        Field.req_prod = true ∧
      storesTo (caml_sring_push_requests addr s v).trace Field.req_prod =
        true) ∧
    ((caml_sring_push_responses addr s v).trace =
        [MemOp.fence, MemOp.store Field.rsp_prod (v % U32)] ∧
      fenceBeforeEveryStore (caml_sring_push_responses addr s v).trace
        Field.rsp_prod = true ∧
      storesTo (caml_sring_push_responses addr s v).trace Field.rsp_prod =
        true) := by
  constructor
  · intro h
    unfold caml_sring_push_requests
    rw [if_pos h]
    exact ⟨rfl, (fence_store_pair_ok _ _).1, (fence_store_pair_ok _ _).2⟩
  · exact ⟨rfl, (fence_store_pair_ok _ _).1, (fence_store_pair_ok _ _).2⟩

/-- C2 counterexample: the produced-index getters issue no fence at all.  At
the concrete control block s0, the trace of caml_sring_req_prod is a bare
load of req_prod with no fence after it (indeed no fence anywhere), and
likewise for caml_sring_rsp_prod; yet a load of the field does occur, so the
absence of a following fence is not vacuous. -/
theorem prod_getter_fence_missing :
    (caml_sring_req_prod 0 s0).trace = [MemOp.load Field.req_prod 5] ∧
    loadsFrom (caml_sring_req_prod 0 s0).trace Field.req_prod = true ∧
    fenceSomewhereAfterLoad (caml_sring_req_prod 0 s0).trace Field.req_prod =
      false ∧
    (caml_sring_rsp_prod 0 s0).trace = [MemOp.load Field.rsp_prod 7] ∧
    loadsFrom (caml_sring_rsp_prod 0 s0).trace Field.rsp_prod = true ∧
    fenceSomewhereAfterLoad (caml_sring_rsp_prod 0 s0).trace Field.rsp_prod =
      false := by
  decide

/-- C2 amended: the produced-index getters caml_sring_req_prod and
caml_sring_rsp_prod issue no memory fence whatsoever: each performs exactly
one load of its field, returns the raw loaded value, and leaves the shared
block untouched; no fence appears anywhere in the trace. -/
theorem prod_getters_load_raw_no_fence (addr : Nat) (s : SRing) :
    (caml_sring_req_prod addr s).trace =
      [MemOp.load Field.req_prod s.req_prod] ∧
    (caml_sring_req_prod addr s).ret = s.req_prod ∧
    (caml_sring_req_prod addr s).state = s ∧
    (caml_sring_req_prod addr s).trace.contains MemOp.fence = false ∧
    (caml_sring_rsp_prod addr s).trace =
      [MemOp.load Field.rsp_prod s.rsp_prod] ∧
    (caml_sring_rsp_prod addr s).ret = s.rsp_prod ∧
    (caml_sring_rsp_prod addr s).state = s ∧
    (caml_sring_rsp_prod addr s).trace.contains MemOp.fence = false := by
  refine ⟨rfl, rfl, rfl, ?_, rfl, rfl, rfl, ?_⟩ <;>
    simp [caml_sring_req_prod, caml_sring_rsp_prod, List.contains]

/-- C3 counterexample: in the event-threshold getters the fence comes before
the load, not after it.  At the concrete control block s0 the trace of
caml_sring_req_event is a fence followed by the load of req_event, and no
fence occurs after that load; likewise for caml_sring_rsp_event. -/
theorem event_getter_fence_is_before_load :
    (caml_sring_req_event 0 s0).trace =
      [MemOp.fence, MemOp.load Field.req_event 6] ∧
    loadsFrom (caml_sring_req_event 0 s0).trace Field.req_event = true ∧
    fenceSomewhereAfterLoad (caml_sring_req_event 0 s0).trace
      Field.req_event = false ∧
    (caml_sring_rsp_event 0 s0).trace =
      [MemOp.fence, MemOp.load Field.rsp_event 8] ∧
    loadsFrom (caml_sring_rsp_event 0 s0).trace Field.rsp_event = true ∧
    fenceSomewhereAfterLoad (caml_sring_rsp_event 0 s0).trace
      Field.rsp_event = false := by
  decide

/-- C3 amended: each event-threshold getter, caml_sring_req_event and
caml_sring_rsp_event, issues the full fence (xen_mb) immediately before the
load of the threshold value, and returns the raw loaded value; no fence is
issued after the load. -/
theorem event_getters_fence_before_load (addr : Nat) (s : SRing) :
    (caml_sring_req_event addr s).trace =
      [MemOp.fence, MemOp.load Field.req_event s.req_event] ∧
    (caml_sring_req_event addr s).ret = s.req_event ∧
    (caml_sring_req_event addr s).state = s ∧
    (caml_sring_rsp_event addr s).trace =
      [MemOp.fence, MemOp.load Field.rsp_event s.rsp_event] ∧
    (caml_sring_rsp_event addr s).ret = s.rsp_event ∧
    (caml_sring_rsp_event addr s).state = s :=
  ⟨rfl, rfl, rfl, rfl, rfl, rfl⟩

/-- C4 counterexample: at the concrete control block sOver, whose req_prod of
100 is more than 32 (the capacity) ahead of a consumer cursor at 0, the
getter caml_sring_req_prod surfaces no fault at all: it returns the raw
stored index 100 unchanged and its fault component is none, not the
RingOverrun the claim requires. -/
theorem overrun_returned_raw_not_faulted :
    32 < sub32 (caml_sring_req_prod 0 sOver).ret 0 ∧
    (caml_sring_req_prod 0 sOver).fault = none ∧
    (caml_sring_req_prod 0 sOver).ret = 100 := by
  decide

/-- C4 amended: the stub layer never surfaces RingOverrun.  The getters
perform no overrun check: for every state of the shared block, including
states whose indices imply more outstanding entries than any capacity, they
return the stored index raw and unchanged (never clamped, never wrapped) and
report no fault; detecting produced minus consumed exceeding capacity is left
entirely to callers, as the design notes of the spec themselves record for
the original code. -/
theorem getters_no_overrun_check (addr : Nat) (s : SRing) :
    (caml_sring_req_prod addr s).fault = none ∧
    (caml_sring_req_prod addr s).ret = s.req_prod ∧
    (caml_sring_rsp_prod addr s).fault = none ∧
    (caml_sring_rsp_prod addr s).ret = s.rsp_prod ∧
    (caml_sring_req_event addr s).fault = none ∧
    (caml_sring_rsp_event addr s).fault = none :=
  ⟨rfl, rfl, rfl, rfl, rfl, rfl⟩

/-- C5: both event-threshold publish stubs, caml_sring_set_rsp_event and
caml_sring_set_req_event, first store the new value into the shared event
field and then issue the fence (xen_mb), in that order: the trace is exactly
the store followed by the fence, and the field holds the stored value. -/
theorem set_event_store_then_fence (addr : Nat) (s : SRing) (v : Nat) :
    (caml_sring_set_rsp_event addr s v).trace =
      [MemOp.store Field.rsp_event (v % U32), MemOp.fence] ∧
    (caml_sring_set_rsp_event addr s v).state.rsp_event = v % U32 ∧
    (caml_sring_set_req_event addr s v).trace =
      [MemOp.store Field.req_event (v % U32), MemOp.fence] ∧
    (caml_sring_set_req_event addr s v).state.req_event = v % U32 :=
  ⟨rfl, rfl, rfl, rfl⟩

/-- C6: for every threshold and every newly published index, the notification
gate returns true exactly when the newly published index crosses the
threshold left by the peer, i.e. when the threshold lies in the wrapped
window from the previously published index exclusive to the new one
inclusive; the hypotheses confine the indices to 32 bits and the published
window to one capacity window. -/
theorem notify_if_needed_iff_crosses (capacity old_prod new_prod event : Nat)
    (h1 : old_prod < U32) (h2 : new_prod < U32) (h3 : event < U32)
    (h4 : sub32 new_prod old_prod ≤ capacity) :
    notify_if_needed old_prod new_prod event = true ↔
      crossesThreshold old_prod new_prod event := by
  simp only [notify_if_needed, crossesThreshold, sub32, U32,
    decide_eq_true_eq] at *
  omega

/-- C6 witness: a concrete instance with capacity 32, previously published
index 10, newly published index 14 and threshold 12, inside the window. -/
theorem notify_if_needed_iff_crosses_witness :
    10 < U32 ∧ 14 < U32 ∧ 12 < U32 ∧ sub32 14 10 ≤ 32 ∧
    (notify_if_needed 10 14 12 = true ↔ crossesThreshold 10 14 12) :=
  ⟨by decide, by decide, by decide, by decide,
    notify_if_needed_iff_crosses 32 10 14 12 (by decide) (by decide)
      (by decide) (by decide)⟩

/-- C7: when produced is the 32-bit wrap of consumed plus an outstanding
count n of at most capacity, available(produced, consumed), the wrapping
unsigned subtraction of consumed from produced, equals n, the number of
entries produced but not yet consumed, and hence lies in the closed interval
from 0 to capacity; this holds across 32-bit wraparound. -/
theorem available_counts_outstanding (consumed n capacity : Nat)
    (hc : consumed < U32) (hcap : capacity < U32) (hn : n ≤ capacity) :
    available ((consumed + n) % U32) consumed = n ∧
    available ((consumed + n) % U32) consumed ≤ capacity := by
  simp only [available, sub32, U32] at *
  omega

/-- C7 witness: a concrete wraparound instance, consumed seeded 3 below the
32-bit boundary with 7 outstanding entries against capacity 32, so the
produced index has wrapped to 4. -/
theorem available_counts_outstanding_witness :
    4294967293 < U32 ∧ 32 < U32 ∧ 7 ≤ 32 ∧
    available ((4294967293 + 7) % U32) 4294967293 = 7 :=
  ⟨by decide, by decide, by decide,
    (available_counts_outstanding 4294967293 7 32 (by decide) (by decide)
      (by decide)).1⟩

/-- C8: each publish stub writes exactly one of the four index fields and
leaves the other three unchanged (caml_sring_push_requests only req_prod,
caml_sring_push_responses only rsp_prod, caml_sring_set_rsp_event only
rsp_event, caml_sring_set_req_event only req_event), and each getter leaves
all four fields unchanged and stores to nothing; the request producer thus
writes req_prod and rsp_event while its peer writes rsp_prod and req_event,
two distinct fields each. -/
theorem stub_frame_conditions (addr : Nat) (s : SRing) (v : Nat) :
    (addr % PAGE_SIZE = 0 →
      storesTo (caml_sring_push_requests addr s v).trace Field.req_prod =
        true ∧
      storesTo (caml_sring_push_requests addr s v).trace Field.req_event =
        false ∧
      storesTo (caml_sring_push_requests addr s v).trace Field.rsp_prod =
        false ∧
      storesTo (caml_sring_push_requests addr s v).trace Field.rsp_event =
        false ∧
      (caml_sring_push_requests addr s v).state.req_event = s.req_event ∧
      (caml_sring_push_requests addr s v).state.rsp_prod = s.rsp_prod ∧
      (caml_sring_push_requests addr s v).state.rsp_event = s.rsp_event) ∧
    (storesTo (caml_sring_push_responses addr s v).trace Field.rsp_prod =
        true ∧
      storesTo (caml_sring_push_responses addr s v).trace Field.req_prod =
        false ∧
      storesTo (caml_sring_push_responses addr s v).trace Field.req_event =
        false ∧
      storesTo (caml_sring_push_responses addr s v).trace Field.rsp_event =
        false ∧
      (caml_sring_push_responses addr s v).state.req_prod = s.req_prod ∧
      (caml_sring_push_responses addr s v).state.req_event = s.req_event ∧
      (caml_sring_push_responses addr s v).state.rsp_event = s.rsp_event) ∧
    (storesTo (caml_sring_set_rsp_event addr s v).trace Field.rsp_event =
        true ∧
      storesTo (caml_sring_set_rsp_event addr s v).trace Field.req_prod =
        false ∧
      storesTo (caml_sring_set_rsp_event addr s v).trace Field.req_event =
        false ∧
      storesTo (caml_sring_set_rsp_event addr s v).trace Field.rsp_prod =
        false ∧
      (caml_sring_set_rsp_event addr s v).state.req_prod = s.req_prod ∧
      (caml_sring_set_rsp_event addr s v).state.req_event = s.req_event ∧
      (caml_sring_set_rsp_event addr s v).state.rsp_prod = s.rsp_prod) ∧
    (storesTo (caml_sring_set_req_event addr s v).trace Field.req_event =
        true ∧
      storesTo (caml_sring_set_req_event addr s v).trace Field.req_prod =
        false ∧
      storesTo (caml_sring_set_req_event addr s v).trace Field.rsp_prod =
        false ∧
      storesTo (caml_sring_set_req_event addr s v).trace Field.rsp_event =
        false ∧
      (caml_sring_set_req_event addr s v).state.req_prod = s.req_prod ∧
      (caml_sring_set_req_event addr s v).state.rsp_prod = s.rsp_prod ∧
      (caml_sring_set_req_event addr s v).state.rsp_event = s.rsp_event) ∧
    ((caml_sring_req_prod addr s).state = s ∧
      storesTo (caml_sring_req_prod addr s).trace Field.req_prod = false ∧
      (caml_sring_rsp_prod addr s).state = s ∧
      storesTo (caml_sring_rsp_prod addr s).trace Field.rsp_prod = false ∧
      (caml_sring_req_event addr s).state = s ∧
      storesTo (caml_sring_req_event addr s).trace Field.req_event = false ∧
      (caml_sring_rsp_event addr s).state = s ∧
      storesTo (caml_sring_rsp_event addr s).trace Field.rsp_event = false) := by
  refine ⟨?_, ?_, ?_, ?_, ?_⟩
  · intro h
    unfold caml_sring_push_requests
    rw [if_pos h]
    refine ⟨?_, ?_, ?_, ?_, rfl, rfl, rfl⟩ <;> simp [storesTo]
  · refine ⟨?_, ?_, ?_, ?_, rfl, rfl, rfl⟩ <;> simp [storesTo, caml_sring_push_responses]
  · refine ⟨?_, ?_, ?_, ?_, rfl, rfl, rfl⟩ <;> simp [storesTo, caml_sring_set_rsp_event]
  · refine ⟨?_, ?_, ?_, ?_, rfl, rfl, rfl⟩ <;> simp [storesTo, caml_sring_set_req_event]
  · refine ⟨rfl, ?_, rfl, ?_, rfl, ?_, rfl, ?_⟩ <;>
      simp [storesTo, caml_sring_req_prod, caml_sring_rsp_prod,
        caml_sring_req_event, caml_sring_rsp_event]

/-- C9: the struct sring layout places the four 32-bit indices at byte
offsets 0, 4, 8 and 12, so they occupy bytes 0 through 15, and the 64 pad
bytes bring the header to 80 bytes; consequently, for a page-aligned base
address, no 64-byte cache line containing a byte of an index field also
contains any byte at or beyond the header end, in particular not the first
slot of the entry array. -/
theorem sring_layout_no_false_sharing (base : Nat) (f : Field) (i b : Nat)
    (hbase : base % PAGE_SIZE = 0) (hi : i < ringIdxBytes)
    (hb : sringHeaderBytes ≤ b) :
    sringHeaderBytes = 80 ∧
    fieldOffset Field.req_prod = 0 ∧
    fieldOffset Field.req_event = 4 ∧
    fieldOffset Field.rsp_prod = 8 ∧
    fieldOffset Field.rsp_event = 12 ∧
    fieldOffset f + ringIdxBytes ≤ 16 ∧
    (base + (fieldOffset f + i)) / cacheLineBytes ≠
      (base + b) / cacheLineBytes := by
  refine ⟨rfl, rfl, rfl, rfl, rfl, ?_, ?_⟩
  · cases f <;> simp [fieldOffset, ringIdxBytes]
  · have hoff : fieldOffset f ≤ 12 := by
      cases f <;> simp [fieldOffset]
    simp only [PAGE_SIZE, ringIdxBytes, sringHeaderBytes, sringPadBytes,
      cacheLineBytes] at *
    omega

/-- C9 witness: base address 0, first byte of req_prod against the first
byte of the slot area at offset 80: cache line 0 against cache line 1. -/
theorem sring_layout_no_false_sharing_witness :
    0 % PAGE_SIZE = 0 ∧ 0 < ringIdxBytes ∧ sringHeaderBytes ≤ 80 ∧
    (0 + (fieldOffset Field.req_prod + 0)) / cacheLineBytes ≠
      (0 + 80) / cacheLineBytes :=
  ⟨by decide, by decide, by decide,
    (sring_layout_no_false_sharing 0 Field.req_prod 0 80 (by decide)
      (by decide) (by decide)).2.2.2.2.2.2⟩

/-- C10: caml_sring_push_requests completes normally exactly when the sring
pointer is page aligned, that is, its address modulo 4096 is 0, and its only
abnormal outcome is the assertion failure; every other stub operation
performs no alignment check and completes normally for every pointer
value. -/
theorem push_requests_alignment_assert (addr : Nat) (s : SRing) (v : Nat) :
    ((caml_sring_push_requests addr s v).fault = none ↔
      addr % PAGE_SIZE = 0) ∧
    ((caml_sring_push_requests addr s v).fault = none ∨
      (caml_sring_push_requests addr s v).fault = some Fault.assertFailed) ∧
    (caml_sring_push_responses addr s v).fault = none ∧
    (caml_sring_set_rsp_event addr s v).fault = none ∧
    (caml_sring_set_req_event addr s v).fault = none ∧
    (caml_sring_req_prod addr s).fault = none ∧
    (caml_sring_rsp_prod addr s).fault = none ∧
    (caml_sring_req_event addr s).fault = none ∧
    (caml_sring_rsp_event addr s).fault = none := by
  refine ⟨?_, ?_, rfl, rfl, rfl, rfl, rfl, rfl, rfl⟩ <;>
    · unfold caml_sring_push_requests
      by_cases h : addr % PAGE_SIZE = 0 <;> simp [h]

end RingStubs
